import Mathlib

/-!
Shallow embedding of `src/task/08-objects-tasks.js`: the CSS-selector builder
(`MySuperBaseElementSelector` and the `cssSelectorBuilder` facade) and the
`fromJSON` helper, together with theorems about their behaviour.

JavaScript numbers that occur here are small integers, modelled as `Int`;
the JavaScript value `undefined` that flows into the rank slot is modelled
as `Option.none`, a defined rank `k` as `Option.some k`.  A thrown
`Error` is modelled with `Except`.
-/

/-- The two error messages thrown by `checkOnErrors` in the source:
`orderError` stands for `Error('Selector parts should be arranged in the
following order: element, id, class, attribute, pseudo-class,
pseudo-element')` and `duplicateError` for `Error('Element, id and
pseudo-element should not occur more then one time inside the selector')`. -/
inductive SelError where
  | orderError
  | duplicateError
deriving DecidableEq, Repr

/-- State of `MySuperBaseElementSelector`: field `line` is the accumulated
string, field `prev` the `this.prev` slot, which holds either a JS number
(`some k`; the constructor sets it to `-1`) or JS `undefined` (`none`,
written by `combine`, which omits the `prev` argument of `setSelector`). -/
structure Selector where
  line : String
  prev : Option Int
deriving DecidableEq, Repr

/-- The constructor `MySuperBaseElementSelector()`: `line = ''`, `prev = -1`. -/
def newSelector : Selector := { line := "", prev := some (-1) }

/-- JavaScript `a > b` on `number | undefined`: any comparison involving
`undefined` is `false` (NaN semantics), otherwise numeric. -/
def jsGt : Option Int → Option Int → Bool
  | some a, some b => decide (a > b)
  | _, _ => false

/-- JavaScript strict equality `a === b` on `number | undefined`:
`undefined === undefined` is `true`, a number equals only itself, and a
number is never strictly equal to `undefined`. -/
def jsStrictEq : Option Int → Option Int → Bool
  | some a, some b => decide (a = b)
  | none, none => true
  | _, _ => false

/-- `MySuperBaseElementSelector.prototype.checkOnErrors(number, canDuplicate)`:
throws `orderError` when `this.prev > number`, else `duplicateError` when
`this.prev === number && !canDuplicate`. -/
def checkOnErrors (s : Selector) (number : Option Int) (canDuplicate : Bool) :
    Except SelError Unit :=
  if jsGt s.prev number then .error .orderError
  else if jsStrictEq s.prev number && !canDuplicate then .error .duplicateError
  else .ok ()

/-- `MySuperBaseElementSelector.prototype.setSelector(selector, prev, canDuplicate)`:
runs `checkOnErrors`, then sets `this.prev = prev`, appends `selector` to
`this.line` and returns `this`.  A caller that omits `prev` passes `none`
(JS `undefined`); an omitted `canDuplicate` is the falsy `undefined`,
modelled as `false`. -/
def setSelector (s : Selector) (selector : String) (prev : Option Int)
    (canDuplicate : Bool) : Except SelError Selector :=
  match checkOnErrors s prev canDuplicate with
  | .error e => .error e
  | .ok _ => .ok { line := s.line ++ selector, prev := prev }

/-- `element(selector)`: `setSelector(selector, 1)`. -/
def Selector.element (s : Selector) (selector : String) : Except SelError Selector :=
  setSelector s selector (some 1) false

/-- `id(selector)`: ``setSelector(`#${selector}`, 2)``. -/
def Selector.id (s : Selector) (selector : String) : Except SelError Selector :=
  setSelector s ("#" ++ selector) (some 2) false

/-- `class(selector)`: ``setSelector(`.${selector}`, 3, true)``. -/
def Selector.«class» (s : Selector) (selector : String) : Except SelError Selector :=
  setSelector s ("." ++ selector) (some 3) true

/-- `attr(selector)`: ``setSelector(`[${selector}]`, 4, true)``. -/
def Selector.attr (s : Selector) (selector : String) : Except SelError Selector :=
  setSelector s ("[" ++ selector ++ "]") (some 4) true

/-- `pseudoClass(selector)`: ``setSelector(`:${selector}`, 5, true)``. -/
def Selector.pseudoClass (s : Selector) (selector : String) : Except SelError Selector :=
  setSelector s (":" ++ selector) (some 5) true

/-- `pseudoElement(selector)`: ``setSelector(`::${selector}`, 6)``. -/
def Selector.pseudoElement (s : Selector) (selector : String) : Except SelError Selector :=
  setSelector s ("::" ++ selector) (some 6) false

/-- `combine(selector1, combinator, selector2)`:
``setSelector(`${selector1.line} ${combinator} ${selector2.line}`)``; both the
`prev` and the `canDuplicate` argument are omitted (JS `undefined`). -/
def Selector.combine (s : Selector) (selector1 : Selector) (combinator : String)
    (selector2 : Selector) : Except SelError Selector :=
  setSelector s (selector1.line ++ " " ++ combinator ++ " " ++ selector2.line) none false

/-- `stringify()`: `return this.line`. -/
def Selector.stringify (s : Selector) : String := s.line

/-- Facade `cssSelectorBuilder.element(value)`. -/
def cssSelectorBuilder.element (value : String) : Except SelError Selector :=
  Selector.element newSelector value

/-- Facade `cssSelectorBuilder.id(value)`. -/
def cssSelectorBuilder.id (value : String) : Except SelError Selector :=
  Selector.id newSelector value

/-- Facade `cssSelectorBuilder.class(value)`. -/
def cssSelectorBuilder.«class» (value : String) : Except SelError Selector :=
  Selector.«class» newSelector value

/-- Facade `cssSelectorBuilder.attr(value)`. -/
def cssSelectorBuilder.attr (value : String) : Except SelError Selector :=
  Selector.attr newSelector value

/-- Facade `cssSelectorBuilder.pseudoClass(value)`. -/
def cssSelectorBuilder.pseudoClass (value : String) : Except SelError Selector :=
  Selector.pseudoClass newSelector value

/-- Facade `cssSelectorBuilder.pseudoElement(value)`. -/
def cssSelectorBuilder.pseudoElement (value : String) : Except SelError Selector :=
  Selector.pseudoElement newSelector value

/-- Facade `cssSelectorBuilder.combine(selector1, combinator, selector2)`. -/
def cssSelectorBuilder.combine (selector1 : Selector) (combinator : String)
    (selector2 : Selector) : Except SelError Selector :=
  Selector.combine newSelector selector1 combinator selector2

/-- One category-appending method call, with its text argument.  `combine`
and `stringify` are not category appends and are treated separately. -/
inductive Call where
  | element (v : String)
  | id (v : String)
  | «class» (v : String)
  | attr (v : String)
  | pseudoClass (v : String)
  | pseudoElement (v : String)
deriving DecidableEq, Repr

/-- The numeric rank each category method passes to `setSelector`. -/
def Call.rank : Call → Int
  | .element _ => 1
  | .id _ => 2
  | .«class» _ => 3
  | .attr _ => 4
  | .pseudoClass _ => 5
  | .pseudoElement _ => 6

/-- The `canDuplicate` flag each category method passes to `setSelector`
(omitted, hence falsy, for element, id and pseudo-element). -/
def Call.canDuplicate : Call → Bool
  | .«class» _ => true
  | .attr _ => true
  | .pseudoClass _ => true
  | _ => false

/-- The literal fragment text each category method appends. -/
def Call.fragment : Call → String
  | .element v => v
  | .id v => "#" ++ v
  | .«class» v => "." ++ v
  | .attr v => "[" ++ v ++ "]"
  | .pseudoClass v => ":" ++ v
  | .pseudoElement v => "::" ++ v

/-- Dispatch one category-appending call on a builder. -/
def applyCall (s : Selector) : Call → Except SelError Selector
  | .element v => s.element v
  | .id v => s.id v
  | .«class» v => s.«class» v
  | .attr v => s.attr v
  | .pseudoClass v => s.pseudoClass v
  | .pseudoElement v => s.pseudoElement v

/-- Run a chain of category-appending calls; the first thrown error stops
the chain (in JS the exception propagates). -/
def runCalls (s : Selector) : List Call → Except SelError Selector
  | [] => .ok s
  | c :: cs =>
    match applyCall s c with
    | .error e => .error e
    | .ok s' => runCalls s' cs

/-- Concatenation, in call order, of each call's literal fragment. -/
def fragments : List Call → String
  | [] => ""
  | c :: cs => c.fragment ++ fragments cs

/-- A call list is valid from previous rank `p` when each rank strictly
increases, or repeats while its category allows duplicates. -/
def validFromB : Int → List Call → Bool
  | _, [] => true
  | p, c :: cs =>
    (decide (p < c.rank) || (decide (p = c.rank) && c.canDuplicate)) && validFromB c.rank cs

/-- Rank reached after running the calls, starting from previous rank `p`. -/
def lastRank (p : Int) : List Call → Int
  | [] => p
  | c :: cs => lastRank c.rank cs

example : cssSelectorBuilder.id "main" = .ok { line := "#main", prev := some 2 } := rfl
example : Selector.stringify { line := "a", prev := some 1 } = "a" := rfl

/-! ### Basic lemmas about `setSelector` and `applyCall` -/

/-- Every category method is `setSelector` at its fragment, rank and flag. -/
lemma applyCall_eq_setSelector (s : Selector) (c : Call) :
    applyCall s c = setSelector s c.fragment (some c.rank) c.canDuplicate := by
  cases c <;> rfl

/-- `checkOnErrors` accepts when the new rank strictly exceeds the stored one,
or equals it while duplicates are allowed. -/
lemma checkOnErrors_ok (line : String) (p r : Int) (d : Bool)
    (h : p < r ∨ (p = r ∧ d = true)) :
    checkOnErrors { line := line, prev := some p } (some r) d = .ok () := by
  rcases h with h | ⟨h1, h2⟩
  · have hg : jsGt (some p) (some r) = false := by simp [jsGt]; omega
    have he : jsStrictEq (some p) (some r) = false := by simp [jsStrictEq]; omega
    simp [checkOnErrors, hg, he]
  · subst h1; subst h2
    have hg : jsGt (some p) (some p) = false := by simp [jsGt]
    simp [checkOnErrors, hg]

/-- `checkOnErrors` accepts anything when `this.prev` is `undefined`. -/
lemma checkOnErrors_none (line : String) (number : Option Int) (d : Bool)
    (h : number.isSome = true ∨ d = true) :
    checkOnErrors { line := line, prev := none } number d = .ok () := by
  rcases number with _ | r
  · rcases h with h | h
    · simp at h
    · subst h; simp [checkOnErrors, jsGt, jsStrictEq]
  · simp [checkOnErrors, jsGt, jsStrictEq]

/-- `checkOnErrors` accepts a `combine`-style call (rank `undefined`) when
`this.prev` is a number. -/
lemma checkOnErrors_some_none (line : String) (p : Int) (d : Bool) :
    checkOnErrors { line := line, prev := some p } none d = .ok () := by
  simp [checkOnErrors, jsGt, jsStrictEq]

/-- Shape of a successful `setSelector`: the fragment is appended to `line`
and `prev` is overwritten with the passed rank. -/
lemma setSelector_ok_shape (s : Selector) (t : String) (pr : Option Int) (d : Bool)
    (s' : Selector) (h : setSelector s t pr d = .ok s') :
    s' = { line := s.line ++ t, prev := pr } := by
  unfold setSelector at h
  cases hc : checkOnErrors s pr d with
  | error e => rw [hc] at h; cases h
  | ok u => rw [hc] at h; exact (Except.ok.inj h).symm

/-- A category call on a builder whose `prev` is a number succeeds exactly
under the order/duplicate rule, producing the appended state. -/
lemma applyCall_ok_of_valid (line : String) (p : Int) (c : Call)
    (h : p < c.rank ∨ (p = c.rank ∧ c.canDuplicate = true)) :
    applyCall { line := line, prev := some p } c =
      .ok { line := line ++ c.fragment, prev := some c.rank } := by
  rw [applyCall_eq_setSelector]
  unfold setSelector
  rw [checkOnErrors_ok line p c.rank c.canDuplicate h]

/-- A category call on a builder whose `prev` is `undefined` (freshly
combined) always succeeds, whatever its rank. -/
lemma applyCall_ok_of_none (line : String) (c : Call) :
    applyCall { line := line, prev := none } c =
      .ok { line := line ++ c.fragment, prev := some c.rank } := by
  rw [applyCall_eq_setSelector]
  unfold setSelector
  rw [checkOnErrors_none line (some c.rank) c.canDuplicate (Or.inl rfl)]

/-- An out-of-order category call (`prev > rank`) throws the order error. -/
lemma applyCall_orderError (line : String) (p : Int) (c : Call) (h : c.rank < p) :
    applyCall { line := line, prev := some p } c = .error .orderError := by
  rw [applyCall_eq_setSelector]
  have hg : jsGt (some p) (some c.rank) = true := by simp [jsGt]; omega
  simp [setSelector, checkOnErrors, hg]

/-- A repeated once-only category call (`prev === rank`, `canDuplicate`
falsy) throws the duplicate error. -/
lemma applyCall_duplicateError (line : String) (c : Call)
    (hd : c.canDuplicate = false) :
    applyCall { line := line, prev := some c.rank } c = .error .duplicateError := by
  rw [applyCall_eq_setSelector]
  have hg : jsGt (some c.rank) (some c.rank) = false := by simp [jsGt]
  have he : jsStrictEq (some c.rank) (some c.rank) = true := by simp [jsStrictEq]
  simp [setSelector, checkOnErrors, hg, he, hd]

/-- Characterisation of a successful category call: it succeeds from a
numeric `prev` only under the order/duplicate rule. -/
lemma applyCall_ok_inv (line : String) (p : Int) (c : Call) (s' : Selector)
    (h : applyCall { line := line, prev := some p } c = .ok s') :
    (p < c.rank ∨ (p = c.rank ∧ c.canDuplicate = true)) ∧
      s' = { line := line ++ c.fragment, prev := some c.rank } := by
  rw [applyCall_eq_setSelector] at h
  by_cases hv : p < c.rank ∨ (p = c.rank ∧ c.canDuplicate = true)
  · refine ⟨hv, ?_⟩
    have := setSelector_ok_shape _ _ _ _ _ h
    simpa using this
  · exfalso
    push_neg at hv
    obtain ⟨h1, h2⟩ := hv
    rcases lt_or_eq_of_le h1 with hlt | heq
    · rw [show ({ line := line, prev := some p } : Selector) =
        { line := line, prev := some p } from rfl] at h
      rw [show setSelector { line := line, prev := some p } c.fragment
          (some c.rank) c.canDuplicate = .error .orderError from ?_] at h
      · cases h
      · have hg : jsGt (some p) (some c.rank) = true := by simp [jsGt]; omega
        simp [setSelector, checkOnErrors, hg]
    · have hp : p = c.rank := heq.symm
      have hdup : c.canDuplicate = false := by
        cases hcd : c.canDuplicate
        · rfl
        · exact absurd hcd (h2 hp)
      subst hp
      rw [show setSelector { line := line, prev := some c.rank } c.fragment
          (some c.rank) c.canDuplicate = .error .duplicateError from ?_] at h
      · cases h
      · have hg : jsGt (some c.rank) (some c.rank) = false := by simp [jsGt]
        have he : jsStrictEq (some c.rank) (some c.rank) = true := by simp [jsStrictEq]
        simp [setSelector, checkOnErrors, hg, he, hdup]

/-! ### Chains of category calls -/

/-- A valid call chain runs to completion, appending every fragment in order
and leaving `prev` at the last rank. -/
lemma runCalls_ok_of_valid :
    ∀ (cs : List Call) (line : String) (p : Int), validFromB p cs = true →
      runCalls { line := line, prev := some p } cs =
        .ok { line := line ++ fragments cs, prev := some (lastRank p cs) } := by
  intro cs
  induction cs with
  | nil =>
    intro line p _
    simp [runCalls, fragments, lastRank, String.append_empty]
  | cons c cs ih =>
    intro line p h
    unfold validFromB at h
    rw [Bool.and_eq_true] at h
    obtain ⟨h1, h2⟩ := h
    have hv : p < c.rank ∨ (p = c.rank ∧ c.canDuplicate = true) := by
      rcases Bool.or_eq_true _ _ |>.mp h1 with h1 | h1
      · exact Or.inl (of_decide_eq_true h1)
      · rw [Bool.and_eq_true] at h1
        exact Or.inr ⟨of_decide_eq_true h1.1, h1.2⟩
    unfold runCalls
    rw [applyCall_ok_of_valid line p c hv]
    dsimp only
    rw [ih (line ++ c.fragment) c.rank h2]
    simp [fragments, lastRank, String.append_assoc]

/-- Conversely, a call chain from a numeric `prev` that runs to completion
was valid: every accepted rank strictly increased or repeated with
duplicates allowed. -/
lemma runCalls_ok_valid :
    ∀ (cs : List Call) (line : String) (p : Int) (s : Selector),
      runCalls { line := line, prev := some p } cs = .ok s →
      validFromB p cs = true := by
  intro cs
  induction cs with
  | nil => intro line p s _; rfl
  | cons c cs ih =>
    intro line p s h
    unfold runCalls at h
    cases hc : applyCall { line := line, prev := some p } c with
    | error e => rw [hc] at h; cases h
    | ok s' =>
      rw [hc] at h
      obtain ⟨hv, hs'⟩ := applyCall_ok_inv line p c s' hc
      subst hs'
      have h2 := ih (line ++ c.fragment) c.rank s h
      unfold validFromB
      rw [Bool.and_eq_true]
      refine ⟨?_, h2⟩
      rcases hv with hv | ⟨hv1, hv2⟩
      · simp [hv]
      · simp [hv1, hv2]

/-- The ranks of a valid chain are pairwise non-decreasing. -/
def ranksNonDecreasing : List Int → Bool
  | a :: b :: rest => decide (a ≤ b) && ranksNonDecreasing (b :: rest)
  | _ => true

/-- Validity from any starting rank implies the appended ranks are
non-decreasing. -/
lemma validFromB_ranksNonDecreasing :
    ∀ (cs : List Call) (p : Int), validFromB p cs = true →
      ranksNonDecreasing (cs.map Call.rank) = true := by
  intro cs
  induction cs with
  | nil => intro p _; rfl
  | cons c cs ih =>
    intro p h
    unfold validFromB at h
    rw [Bool.and_eq_true] at h
    obtain ⟨h1, h2⟩ := h
    have htail := ih c.rank h2
    cases cs with
    | nil => rfl
    | cons c' cs' =>
      unfold validFromB at h2
      rw [Bool.and_eq_true] at h2
      obtain ⟨h21, _⟩ := h2
      have hle : c.rank ≤ c'.rank := by
        rcases Bool.or_eq_true _ _ |>.mp h21 with h21 | h21
        · exact le_of_lt (of_decide_eq_true h21)
        · rw [Bool.and_eq_true] at h21
          exact le_of_eq (of_decide_eq_true h21.1)
      unfold ranksNonDecreasing
      simp only [List.map_cons] at htail ⊢
      rw [Bool.and_eq_true]
      exact ⟨decide_eq_true hle, htail⟩

/-! ### Full operation traces (category appends and `combine` on one builder) -/

/-- An operation invoked on one builder object: either a category-appending
method, or the `combine` method with its two other-selector arguments and
the combinator text. -/
inductive Op where
  | app (c : Call)
  | comb (selector1 : Selector) (combinator : String) (selector2 : Selector)
deriving DecidableEq, Repr

/-- Dispatch one operation on a builder. -/
def applyOp (s : Selector) : Op → Except SelError Selector
  | .app c => applyCall s c
  | .comb s1 cb s2 => s.combine s1 cb s2

/-- Run a list of operations on one builder; the first thrown error stops
the run. -/
def runOps (s : Selector) : List Op → Except SelError Selector
  | [] => .ok s
  | o :: os =>
    match applyOp s o with
    | .error e => .error e
    | .ok s' => runOps s' os

/-- Whether an `Except` result is a success. -/
def isOkB : Except SelError Selector → Bool
  | .ok _ => true
  | .error _ => false

/-- Ranks of the category-appending operations of a trace, in call order
(`combine` operations contribute no rank). -/
def appendRanks (os : List Op) : List Int :=
  os.filterMap fun o =>
    match o with
    | .app c => some c.rank
    | .comb _ _ _ => none

/-! ### Exception-style semantics: state after a throwing call -/

/-- `setSelector` with JavaScript exception semantics made explicit: when
`checkOnErrors` throws, no field of `this` has been assigned yet (the check
runs before both assignments), so the state is returned unchanged next to
the error; on success the updated state is returned. -/
def setSelectorExc (s : Selector) (selector : String) (prev : Option Int)
    (canDuplicate : Bool) : Selector × Option SelError :=
  match checkOnErrors s prev canDuplicate with
  | .error e => (s, some e)
  | .ok _ => ({ line := s.line ++ selector, prev := prev }, none)

/-- Dispatch one category-appending call with exception-style semantics. -/
def applyCallExc (s : Selector) : Call → Selector × Option SelError
  | .element v => setSelectorExc s v (some 1) false
  | .id v => setSelectorExc s ("#" ++ v) (some 2) false
  | .«class» v => setSelectorExc s ("." ++ v) (some 3) true
  | .attr v => setSelectorExc s ("[" ++ v ++ "]") (some 4) true
  | .pseudoClass v => setSelectorExc s (":" ++ v) (some 5) true
  | .pseudoElement v => setSelectorExc s ("::" ++ v) (some 6) false

/-- The exception-style dispatch agrees with the `Except`-style one call by
call. -/
lemma applyCallExc_eq (s : Selector) (c : Call) :
    applyCallExc s c =
      match applyCall s c with
      | .error e => (s, some e)
      | .ok s' => (s', none) := by
  rw [applyCall_eq_setSelector]
  cases c <;>
    · dsimp only [applyCallExc, Call.fragment, Call.rank, Call.canDuplicate]
      unfold setSelectorExc setSelector
      cases checkOnErrors s _ _ <;> rfl

/-- `stringify()` as a method call on the object: the body `return this.line`
contains no assignment, so the receiver is returned unchanged together with
the produced string. -/
def stringifyCall (s : Selector) : Selector × String := (s, s.line)

/-! ### Model of `fromJSON` (source lines 60-68)

`fromJSON(proto, json)` is `if (!json && !proto) return null;` followed by
`JSON.parse(json)` and `Object.setPrototypeOf(obj, proto)`.  The JavaScript
values that can flow through it are modelled by `JsVal`; the two host
builtins `JSON.parse` and `Object.setPrototypeOf` are modelled from their
ECMAScript-defined behaviour on a fragment of JSON: the literals `null`,
`true`, `false`; integer numerals without leading zeros whose magnitude
stays at most `2^53 - 1`, so that the double representation is exact;
strings free of escapes and of raw control characters; and flat objects of
such values, a repeated key overwriting the earlier member's value in
place, as `CreateDataProperty` does.  Wherever the model parses, it parses
exactly as `JSON.parse` does; an input outside the fragment (fractions,
exponents, nested structures, escapes, oversized numerals, ...) is
reported as a parse error by the model and is used in no theorem. -/

/-- A JavaScript value: `undefined`, `null`, a boolean, an integral number,
a string, or an object carrying its own fields and its prototype slot. -/
inductive JsVal where
  | vundef
  | vnull
  | vbool (b : Bool)
  | vnum (n : Int)
  | vstr (s : String)
  | vobj (fields : List (String × JsVal)) (proto : JsVal)

/-- JavaScript truthiness: `undefined`, `null`, `false`, `0` and `''` are
falsy, everything else (objects included) is truthy. -/
def truthy : JsVal → Bool
  | .vundef => false
  | .vnull => false
  | .vbool b => b
  | .vnum n => decide (n ≠ 0)
  | .vstr s => decide (s ≠ "")
  | .vobj _ _ => true

/-- String coercion applied by `JSON.parse` to its argument. -/
def jsToString : JsVal → String
  | .vundef => "undefined"
  | .vnull => "null"
  | .vbool true => "true"
  | .vbool false => "false"
  | .vnum n => toString n
  | .vstr s => s
  | .vobj _ _ => "[object Object]"

/-- The error kinds `fromJSON` can surface: a `SyntaxError` escaping
`JSON.parse`, or a `TypeError` escaping `Object.setPrototypeOf`. -/
inductive JsErr where
  | parseErr
  | typeErr
deriving DecidableEq, Repr

/-- Skip JSON whitespace. -/
def skipWs : List Char → List Char
  | c :: cs => if c = ' ' ∨ c = '\n' ∨ c = '\t' ∨ c = '\r' then skipWs cs else c :: cs
  | [] => []

/-- Read a JSON string body up to the closing quote (the opening quote is
already consumed).  A backslash escape falls outside the modelled fragment;
a raw control character below `U+0020` or a missing closing quote is a
syntax error, just as for `JSON.parse`. -/
def takeStr (acc : List Char) : List Char → Option (String × List Char)
  | c :: cs =>
    if c = '"' then some (String.mk acc.reverse, cs)
    else if c = '\\' ∨ c.toNat < 32 then none
    else takeStr (c :: acc) cs
  | [] => none

/-- Read a run of decimal digits, accumulating their value. -/
def takeDigits (acc : Nat) : List Char → Nat × List Char
  | c :: cs => if c.isDigit then takeDigits (acc * 10 + (c.toNat - 48)) cs else (acc, c :: cs)
  | [] => (acc, [])

/-- Read an unsigned JSON integer numeral starting at `c` per the JSON
grammar `0 | onenine digit*`: a leading zero must stand alone (`05` is a
syntax error for `JSON.parse`, and for the model).  A value above
`2^53 - 1`, where the double result would no longer be the exact integer,
falls outside the modelled fragment. -/
def parseNat (c : Char) (cs : List Char) : Option (Nat × List Char) :=
  if c = '0' then
    match cs with
    | d :: _ => if d.isDigit then none else some (0, cs)
    | [] => some (0, [])
  else if c.isDigit then
    let p := takeDigits (c.toNat - 48) cs
    if p.1 ≤ 9007199254740991 then some p else none
  else none

/-- Parse one primitive JSON value: `null`, `true`, `false`, an integer or
a string. -/
def parsePrim : List Char → Option (JsVal × List Char)
  | 'n' :: 'u' :: 'l' :: 'l' :: cs => some (.vnull, cs)
  | 't' :: 'r' :: 'u' :: 'e' :: cs => some (.vbool true, cs)
  | 'f' :: 'a' :: 'l' :: 's' :: 'e' :: cs => some (.vbool false, cs)
  | '"' :: cs => (takeStr [] cs).map fun p => (.vstr p.1, p.2)
  | '-' :: c :: cs => (parseNat c cs).map fun p => (.vnum (-(p.1 : Int)), p.2)
  | c :: cs => (parseNat c cs).map fun p => (.vnum (p.1 : Int), p.2)
  | [] => none

/-- Record one parsed object member the way `CreateDataProperty` does: a
key already present keeps its position and gets the new value; a fresh key
is appended at the end. -/
def setField : List (String × JsVal) → String → JsVal → List (String × JsVal)
  | [], k, v => [(k, v)]
  | (k', v') :: rest, k, v =>
    if k' = k then (k', v) :: rest else (k', v') :: setField rest k v

/-- Parse the members of a flat JSON object after its opening brace; member
values are primitives, and a duplicate key overwrites the earlier value in
place (`JSON.parse` keeps the last member, at the first occurrence's
position).  A freshly parsed object's prototype slot is the built-in
`Object.prototype`, which `fromJSON` always overwrites; the model leaves it
as `vnull`. -/
def takeMembers (fuel : Nat) (cs : List Char) (acc : List (String × JsVal)) :
    Option (JsVal × List Char) :=
  match fuel with
  | 0 => none
  | fuel + 1 =>
    match skipWs cs with
    | '"' :: cs1 =>
      match takeStr [] cs1 with
      | none => none
      | some (key, cs2) =>
        match skipWs cs2 with
        | ':' :: cs3 =>
          match parsePrim (skipWs cs3) with
          | none => none
          | some (v, cs4) =>
            match skipWs cs4 with
            | ',' :: cs5 => takeMembers fuel cs5 (setField acc key v)
            | '}' :: cs5 => some (.vobj (setField acc key v) .vnull, cs5)
            | _ => none
        | _ => none
    | _ => none

/-- Parse one JSON value: a primitive or a flat object. -/
def parseVal (cs : List Char) : Option (JsVal × List Char) :=
  match skipWs cs with
  | '{' :: cs1 =>
    match skipWs cs1 with
    | '}' :: cs2 => some (.vobj [] .vnull, cs2)
    | _ => takeMembers (cs1.length + 1) cs1 []
  | cs1 => parsePrim cs1

/-- Model of the builtin `JSON.parse` on the modelled JSON fragment: the
whole input must be consumed up to trailing whitespace, else a
`SyntaxError` is thrown. -/
def parseJSON (s : String) : Except JsErr JsVal :=
  match parseVal s.data with
  | some (v, rest) => if skipWs rest = [] then .ok v else .error .parseErr
  | none => .error .parseErr

/-- Whether a value is acceptable as a prototype (an object or `null`). -/
def isObjectOrNull : JsVal → Bool
  | .vobj _ _ => true
  | .vnull => true
  | _ => false

/-- Model of the builtin `Object.setPrototypeOf(O, proto)`: throws
`TypeError` when `O` is `undefined` or `null` or when `proto` is neither an
object nor `null`; replaces the prototype slot when `O` is an object; and
returns a primitive `O` unchanged. -/
def setPrototypeOf (o proto : JsVal) : Except JsErr JsVal :=
  match o with
  | .vundef => .error .typeErr
  | .vnull => .error .typeErr
  | .vobj fields _ =>
    if isObjectOrNull proto then .ok (.vobj fields proto) else .error .typeErr
  | prim => if isObjectOrNull proto then .ok prim else .error .typeErr

/-- `fromJSON(proto, json)`: `if (!json && !proto) return null;` then
`const obj = JSON.parse(json); Object.setPrototypeOf(obj, proto); return obj;`. -/
def fromJSON (proto json : JsVal) : Except JsErr JsVal :=
  if !truthy json && !truthy proto then .ok .vnull
  else
    match parseJSON (jsToString json) with
    | .error e => .error e
    | .ok obj => setPrototypeOf obj proto

example : parseJSON "null" = .ok .vnull := rfl
example : parseJSON "\x7b\x22width\x22:10, \x22height\x22:20\x7d" =
    .ok (.vobj [("width", .vnum 10), ("height", .vnum 20)] .vnull) := rfl
example : fromJSON .vundef .vundef = .ok .vnull := rfl
example : fromJSON (.vobj [] .vnull) (.vstr "null") = .error .typeErr := rfl
example : parseJSON "\x7b\x22a\x22:05\x7d" = .error .parseErr := rfl
example : parseJSON "\x7b\x22a\x22:1,\x22a\x22:2\x7d" =
    .ok (.vobj [("a", .vnum 2)] .vnull) := rfl
example : parseJSON "9007199254740993" = .error .parseErr := rfl
example : parseJSON "9007199254740991" = .ok (.vnum 9007199254740991) := rfl

/-- A value whose string coercion parses to a JSON object is truthy (all
falsy values coerce to strings that parse to a non-object or not at all). -/
lemma truthy_of_parse_vobj (json : JsVal) (fields : List (String × JsVal)) (op : JsVal)
    (h : parseJSON (jsToString json) = .ok (.vobj fields op)) : truthy json = true := by
  by_cases ht : truthy json = true
  · exact ht
  · exfalso
    cases json with
    | vundef =>
      exact Except.noConfusion
        (show (Except.error JsErr.parseErr : Except JsErr JsVal) = .ok (.vobj fields op) from h)
    | vnull =>
      exact JsVal.noConfusion (Except.ok.inj
        (show (Except.ok JsVal.vnull : Except JsErr JsVal) = .ok (.vobj fields op) from h))
    | vbool b =>
      cases b with
      | true => exact ht rfl
      | false =>
        exact JsVal.noConfusion (Except.ok.inj
          (show (Except.ok (JsVal.vbool false) : Except JsErr JsVal) =
            .ok (.vobj fields op) from h))
    | vnum n =>
      have hn : n = 0 := by
        by_contra hn
        exact ht (by simp [truthy, hn])
      subst hn
      exact JsVal.noConfusion (Except.ok.inj
        (show (Except.ok (JsVal.vnum 0) : Except JsErr JsVal) = .ok (.vobj fields op) from h))
    | vstr s =>
      have hs : s = "" := by
        by_contra hs
        exact ht (by simp [truthy, hs])
      subst hs
      exact Except.noConfusion
        (show (Except.error JsErr.parseErr : Except JsErr JsVal) = .ok (.vobj fields op) from h)
    | vobj f p => exact ht rfl

/-! ### The claims -/

/-- C1: for every sequence of category-append calls on one builder whose
ranks are non-decreasing, a rank repeating only when its category allows
duplicates, every call succeeds and `stringify()` returns the concatenation,
in call order, of each fragment's literal rendering (`value`, `#value`,
`.value`, `[value]`, `:value`, `::value`). -/
theorem valid_chain_succeeds (cs : List Call) (h : validFromB (-1) cs = true) :
    runCalls newSelector cs =
      .ok { line := fragments cs, prev := some (lastRank (-1) cs) } ∧
    Selector.stringify { line := fragments cs, prev := some (lastRank (-1) cs) } =
      fragments cs := by
  constructor
  · have := runCalls_ok_of_valid cs "" (-1) h
    rw [String.empty_append] at this
    exact this
  · rfl

/-- Witness for C1 at a concrete seven-call chain touching every category:
`a#main.x.y[href]:focus::after`. -/
theorem valid_chain_succeeds_witness :
    validFromB (-1) [Call.element "a", Call.id "main", Call.«class» "x", Call.«class» "y",
      Call.attr "href", Call.pseudoClass "focus", Call.pseudoElement "after"] = true ∧
    (runCalls newSelector [Call.element "a", Call.id "main", Call.«class» "x",
        Call.«class» "y", Call.attr "href", Call.pseudoClass "focus",
        Call.pseudoElement "after"] =
      .ok { line := "a#main.x.y[href]:focus::after", prev := some 6 } ∧
     Selector.stringify { line := "a#main.x.y[href]:focus::after", prev := some 6 } =
       "a#main.x.y[href]:focus::after") :=
  ⟨by decide, valid_chain_succeeds _ (by decide)⟩

/-- C2: the facade's `combine(a, c, b)` never raises for any selectors `a`,
`b` and any combinator string `c`, and the `stringify()` of its result is
`a.stringify() ++ " " ++ c ++ " " ++ b.stringify()`, one literal space on
each side of the combinator. -/
theorem combine_never_raises (a : Selector) (c : String) (b : Selector) :
    cssSelectorBuilder.combine a c b =
      .ok { line := a.stringify ++ " " ++ c ++ " " ++ b.stringify, prev := none } ∧
    Selector.stringify
        { line := a.stringify ++ " " ++ c ++ " " ++ b.stringify, prev := none } =
      a.stringify ++ " " ++ c ++ " " ++ b.stringify := by
  constructor
  · show Selector.combine newSelector a c b = _
    unfold Selector.combine setSelector newSelector
    rw [checkOnErrors_some_none "" (-1) false]
    dsimp only
    rw [String.empty_append]
    rfl
  · rfl

/-- C3: on a builder whose stored rank is `p`, any category-append call of
rank `r < p` raises the order error at that very call. -/
theorem out_of_order_raises (s : Selector) (p : Int) (c : Call)
    (hp : s.prev = some p) (hr : c.rank < p) :
    applyCall s c = .error SelError.orderError := by
  obtain ⟨line, pr⟩ := s
  dsimp only at hp
  subst hp
  exact applyCall_orderError line p c hr

/-- Witness for C3: `element` after `class` (rank 1 after rank 3) raises
the order error. -/
theorem out_of_order_raises_witness :
    ({ line := ".a", prev := some 3 } : Selector).prev = some 3 ∧
    (Call.element "div").rank < 3 ∧
    applyCall { line := ".a", prev := some 3 } (Call.element "div") =
      .error SelError.orderError :=
  ⟨rfl, by decide, out_of_order_raises _ 3 (Call.element "div") rfl (by decide)⟩

/-- C4: on a builder whose stored rank equals the rank of the new call, a
category that forbids duplicates (element, id, pseudo-element) raises the
duplicate error at that very call. -/
theorem duplicate_raises (s : Selector) (c : Call)
    (hp : s.prev = some c.rank) (hd : c.canDuplicate = false) :
    applyCall s c = .error SelError.duplicateError := by
  obtain ⟨line, pr⟩ := s
  dsimp only at hp
  subst hp
  exact applyCall_duplicateError line c hd

/-- Witness for C4: `element` twice in a row raises the duplicate error. -/
theorem duplicate_raises_witness :
    ({ line := "div", prev := some 1 } : Selector).prev = some (Call.element "span").rank ∧
    (Call.element "span").canDuplicate = false ∧
    applyCall { line := "div", prev := some 1 } (Call.element "span") =
      .error SelError.duplicateError :=
  ⟨rfl, rfl, duplicate_raises _ (Call.element "span") rfl rfl⟩

/-- C5 counterexample: the invariant is not preserved by *every* operation.
On one builder, `class` (rank 3) is accepted, then `combine` (which resets
`prev` to `undefined`) is accepted, then `element` (rank 1) is accepted, so
the accepted category-append ranks read `[3, 1]` - not non-decreasing. -/
theorem rank_invariant_counterexample :
    isOkB (runOps newSelector
      [Op.app (Call.«class» "a"),
       Op.comb { line := "div", prev := some 1 } ">" { line := "p", prev := some 1 },
       Op.app (Call.element "div")]) = true ∧
    appendRanks
      [Op.app (Call.«class» "a"),
       Op.comb { line := "div", prev := some 1 } ">" { line := "p", prev := some 1 },
       Op.app (Call.element "div")] = [3, 1] ∧
    ranksNonDecreasing [3, 1] = false :=
  ⟨rfl, rfl, rfl⟩

/-- C5 amended: restricted to builders driven by category-append calls only
(no intervening `combine`), the invariant holds: a chain that is accepted in
full has non-decreasing ranks, a rank repeating only when its category
allows duplicates. -/
theorem rank_invariant_append_only (cs : List Call) (s : Selector)
    (h : runCalls newSelector cs = .ok s) :
    validFromB (-1) cs = true ∧ ranksNonDecreasing (cs.map Call.rank) = true := by
  have hv := runCalls_ok_valid cs "" (-1) s h
  exact ⟨hv, validFromB_ranksNonDecreasing cs (-1) hv⟩

/-- Witness for the amended C5 on the chain `#main.container.editable`. -/
theorem rank_invariant_append_only_witness :
    runCalls newSelector [Call.id "main", Call.«class» "container", Call.«class» "editable"] =
      .ok { line := "#main.container.editable", prev := some 3 } ∧
    (validFromB (-1) [Call.id "main", Call.«class» "container", Call.«class» "editable"] = true ∧
     ranksNonDecreasing ([Call.id "main", Call.«class» "container",
       Call.«class» "editable"].map Call.rank) = true) :=
  ⟨rfl, rank_invariant_append_only _ _ rfl⟩

/-- C6 counterexample: `combine` is *not* exempt from validation on every
receiver.  The facade's `combine` leaves `prev = undefined`; a second
`combine` chained onto that result compares `undefined === undefined` with a
falsy `canDuplicate` and throws the duplicate error. -/
theorem combine_after_combine_raises :
    cssSelectorBuilder.combine newSelector "+" newSelector =
      .ok { line := " + ", prev := none } ∧
    Selector.combine { line := " + ", prev := none } newSelector ">" newSelector =
      .error SelError.duplicateError :=
  ⟨rfl, rfl⟩

/-- C6 amended: `combine` bypasses validation whenever the receiver's
stored rank is a number (true of every fresh facade builder and of any
builder whose last accepted call was a category append; only a receiver
just combined, with `prev = undefined`, makes `combine` raise), and
chaining after `combine` starts a fresh ordering context: the first
category-append call after it is accepted regardless of its rank, and
subsequent calls are validated against the ranks appended after the
`combine` only. -/
theorem combine_fresh_ordering (s : Selector) (p : Int) (hp : s.prev = some p)
    (a : Selector) (cb : String) (b : Selector) (c : Call) (cs : List Call)
    (hv : validFromB c.rank cs = true) :
    s.combine a cb b =
      .ok { line := s.line ++ (a.line ++ " " ++ cb ++ " " ++ b.line), prev := none } ∧
    runCalls { line := s.line ++ (a.line ++ " " ++ cb ++ " " ++ b.line), prev := none }
        (c :: cs) =
      .ok { line := s.line ++ (a.line ++ " " ++ cb ++ " " ++ b.line) ++ c.fragment
              ++ fragments cs,
            prev := some (lastRank c.rank cs) } := by
  obtain ⟨line, pr⟩ := s
  dsimp only at hp
  subst hp
  constructor
  · unfold Selector.combine setSelector
    rw [checkOnErrors_some_none line p false]
  · unfold runCalls
    rw [applyCall_ok_of_none _ c]
    dsimp only
    rw [runCalls_ok_of_valid cs _ c.rank hv]

/-- Witness for the amended C6: a builder ending at pseudo-element rank 6 is
combined, then `element` (rank 1) and `id` (rank 2) are chained on. -/
theorem combine_fresh_ordering_witness :
    ({ line := "::after", prev := some 6 } : Selector).prev = some 6 ∧
    validFromB (Call.element "span").rank [Call.id "x"] = true ∧
    (Selector.combine { line := "::after", prev := some 6 }
        { line := "div", prev := some 1 } "+" { line := "p", prev := some 1 } =
      .ok { line := "::afterdiv + p", prev := none } ∧
     runCalls { line := "::afterdiv + p", prev := none }
        [Call.element "span", Call.id "x"] =
      .ok { line := "::afterdiv + pspan#x", prev := some 2 }) :=
  ⟨rfl, rfl,
    combine_fresh_ordering _ 6 rfl { line := "div", prev := some 1 } "+"
      { line := "p", prev := some 1 } (Call.element "span") [Call.id "x"] rfl⟩

/-- C7: `stringify()` is a pure read: it leaves the builder unchanged, two
consecutive calls return the same string, a category-append call after
`stringify()` behaves exactly as without it, and a successful append
extends the future `stringify()` result by the new fragment. -/
theorem stringify_pure_read (s : Selector) (c : Call) (s' : Selector)
    (h : applyCall s c = .ok s') :
    stringifyCall s = (s, Selector.stringify s) ∧
    (stringifyCall (stringifyCall s).1).2 = (stringifyCall s).2 ∧
    applyCall (stringifyCall s).1 c = .ok s' ∧
    Selector.stringify s' = Selector.stringify s ++ c.fragment := by
  refine ⟨rfl, rfl, h, ?_⟩
  rw [applyCall_eq_setSelector] at h
  have hs := setSelector_ok_shape _ _ _ _ _ h
  rw [hs]
  rfl

/-- Witness for C7: stringify before and after appending `#x` to `div`. -/
theorem stringify_pure_read_witness :
    applyCall { line := "div", prev := some 1 } (Call.id "x") =
      .ok { line := "div#x", prev := some 2 } ∧
    (stringifyCall { line := "div", prev := some 1 } =
        ({ line := "div", prev := some 1 }, "div") ∧
     (stringifyCall (stringifyCall { line := "div", prev := some 1 }).1).2 =
        (stringifyCall { line := "div", prev := some 1 }).2 ∧
     applyCall (stringifyCall { line := "div", prev := some 1 }).1 (Call.id "x") =
        .ok { line := "div#x", prev := some 2 } ∧
     Selector.stringify { line := "div#x", prev := some 2 } =
        Selector.stringify { line := "div", prev := some 1 } ++ (Call.id "x").fragment) :=
  ⟨rfl, stringify_pure_read _ (Call.id "x") _ rfl⟩

/-- C8: no input is validated.  Every facade category entry accepts any
text and embeds it verbatim in the rendered string, and `combine` accepts
any combinator string and inserts it verbatim. -/
theorem any_text_accepted (v : String) (a : Selector) (c : String) (b : Selector) :
    cssSelectorBuilder.element v = .ok { line := v, prev := some 1 } ∧
    cssSelectorBuilder.id v = .ok { line := "#" ++ v, prev := some 2 } ∧
    cssSelectorBuilder.«class» v = .ok { line := "." ++ v, prev := some 3 } ∧
    cssSelectorBuilder.attr v = .ok { line := "[" ++ v ++ "]", prev := some 4 } ∧
    cssSelectorBuilder.pseudoClass v = .ok { line := ":" ++ v, prev := some 5 } ∧
    cssSelectorBuilder.pseudoElement v = .ok { line := "::" ++ v, prev := some 6 } ∧
    cssSelectorBuilder.combine a c b =
      .ok { line := a.line ++ " " ++ c ++ " " ++ b.line, prev := none } :=
  ⟨rfl, rfl, rfl, rfl, rfl, rfl, rfl⟩

/-- C9: a failing category-append call is atomic.  With the throw made
explicit, the builder is returned exactly as it was (the check runs before
any mutation), its rendered text is unchanged, and any further call behaves
as if the failing call had never happened. -/
theorem failed_append_atomic (s : Selector) (c c' : Call) (e : SelError)
    (h : applyCall s c = .error e) :
    applyCallExc s c = (s, some e) ∧
    Selector.stringify (applyCallExc s c).1 = Selector.stringify s ∧
    applyCall (applyCallExc s c).1 c' = applyCall s c' := by
  have h1 : applyCallExc s c = (s, some e) := by rw [applyCallExc_eq, h]
  rw [h1]
  exact ⟨rfl, rfl, rfl⟩

/-- Witness for C9: after `.a` rejects `element`, the builder still holds
`.a` and accepts a legal `attr` call. -/
theorem failed_append_atomic_witness :
    applyCall { line := ".a", prev := some 3 } (Call.element "div") =
      .error SelError.orderError ∧
    (applyCallExc { line := ".a", prev := some 3 } (Call.element "div") =
        ({ line := ".a", prev := some 3 }, some SelError.orderError) ∧
     Selector.stringify
        (applyCallExc { line := ".a", prev := some 3 } (Call.element "div")).1 =
        Selector.stringify { line := ".a", prev := some 3 } ∧
     applyCall (applyCallExc { line := ".a", prev := some 3 } (Call.element "div")).1
        (Call.attr "href") =
        applyCall { line := ".a", prev := some 3 } (Call.attr "href")) :=
  ⟨rfl, failed_append_atomic _ (Call.element "div") (Call.attr "href")
    SelError.orderError rfl⟩

/-- C10 counterexample: with a truthy (object) `proto` and the truthy JSON
text `"null"`, `JSON.parse` succeeds and yields `null`, but
`Object.setPrototypeOf(null, proto)` throws a `TypeError`, so `fromJSON`
does not return the parsed value with its prototype set as the claim
states. -/
theorem fromJSON_counterexample :
    truthy (JsVal.vobj [("getArea", JsVal.vstr "method")] JsVal.vnull) = true ∧
    parseJSON (jsToString (JsVal.vstr "null")) = .ok JsVal.vnull ∧
    fromJSON (JsVal.vobj [("getArea", JsVal.vstr "method")] JsVal.vnull)
        (JsVal.vstr "null") =
      .error JsErr.typeErr :=
  ⟨rfl, rfl, rfl⟩

/-- C10 amended: `fromJSON(proto, json)` returns `null` exactly when both
`proto` and `json` are falsy; otherwise it parses `json` as JSON and, when
the parsed value is an object and `proto` is an object or `null`, returns
that object with its prototype set to `proto` (so it has the parsed fields
and, through the prototype, the methods of `proto`).  When `proto` is
neither an object nor `null`, the `TypeError` of `Object.setPrototypeOf`
propagates; when the parsed value is `null`, the same `TypeError`
propagates whatever `proto` is; and when `json` does not parse as JSON
(for instance the empty string, or the text `undefined` that a missing
argument coerces to), the `SyntaxError` of `JSON.parse` propagates - in
each of these cases an error is thrown instead of a value returned. -/
theorem fromJSON_fields_and_proto
    (proto json proto2 json2 protoBad jsonNull protoAny : JsVal)
    (fields : List (String × JsVal)) (op : JsVal)
    (hparse : parseJSON (jsToString json) = .ok (JsVal.vobj fields op))
    (hproto : isObjectOrNull proto = true)
    (hz1 : truthy proto2 = false) (hz2 : truthy json2 = false)
    (hbad : isObjectOrNull protoBad = false)
    (hjn : parseJSON (jsToString jsonNull) = .ok JsVal.vnull)
    (hjt : truthy jsonNull = true) :
    fromJSON proto json = .ok (JsVal.vobj fields proto) ∧
    fromJSON proto2 json2 = .ok JsVal.vnull ∧
    fromJSON proto json ≠ .ok JsVal.vnull ∧
    fromJSON protoBad json = .error JsErr.typeErr ∧
    fromJSON protoAny jsonNull = .error JsErr.typeErr ∧
    fromJSON (JsVal.vobj [] JsVal.vnull) (JsVal.vstr "") = .error JsErr.parseErr ∧
    fromJSON (JsVal.vobj [] JsVal.vnull) JsVal.vundef = .error JsErr.parseErr := by
  have ht : truthy json = true := truthy_of_parse_vobj json fields op hparse
  have h1 : fromJSON proto json = .ok (JsVal.vobj fields proto) := by
    simp [fromJSON, ht, hparse, setPrototypeOf, hproto]
  refine ⟨h1, ?_, ?_, ?_, ?_, rfl, rfl⟩
  · simp [fromJSON, hz1, hz2]
  · rw [h1]
    intro hh
    exact JsVal.noConfusion (Except.ok.inj hh)
  · simp [fromJSON, ht, hparse, setPrototypeOf, hbad]
  · simp [fromJSON, hjt, hjn, setPrototypeOf]

/-- Witness for the amended C10: parsing `{"width":10}` against an object
prototype attaches that prototype; both-falsy arguments return `null`,
which the non-degenerate case never does; a numeric prototype, a parsed
`null`, and the unparseable texts `""` and `undefined` each produce the
corresponding error. -/
theorem fromJSON_fields_and_proto_witness :
    parseJSON (jsToString (JsVal.vstr "\x7b\x22width\x22:10\x7d")) =
      .ok (JsVal.vobj [("width", JsVal.vnum 10)] JsVal.vnull) ∧
    isObjectOrNull (JsVal.vobj [("getArea", JsVal.vstr "method")] JsVal.vnull) = true ∧
    truthy JsVal.vundef = false ∧
    truthy (JsVal.vstr "") = false ∧
    isObjectOrNull (JsVal.vnum 7) = false ∧
    parseJSON (jsToString (JsVal.vstr "null")) = .ok JsVal.vnull ∧
    truthy (JsVal.vstr "null") = true ∧
    (fromJSON (JsVal.vobj [("getArea", JsVal.vstr "method")] JsVal.vnull)
        (JsVal.vstr "\x7b\x22width\x22:10\x7d") =
      .ok (JsVal.vobj [("width", JsVal.vnum 10)]
            (JsVal.vobj [("getArea", JsVal.vstr "method")] JsVal.vnull)) ∧
     fromJSON JsVal.vundef (JsVal.vstr "") = .ok JsVal.vnull ∧
     fromJSON (JsVal.vobj [("getArea", JsVal.vstr "method")] JsVal.vnull)
        (JsVal.vstr "\x7b\x22width\x22:10\x7d") ≠ .ok JsVal.vnull ∧
     fromJSON (JsVal.vnum 7) (JsVal.vstr "\x7b\x22width\x22:10\x7d") =
        .error JsErr.typeErr ∧
     fromJSON (JsVal.vobj [("getArea", JsVal.vstr "method")] JsVal.vnull)
        (JsVal.vstr "null") = .error JsErr.typeErr ∧
     fromJSON (JsVal.vobj [] JsVal.vnull) (JsVal.vstr "") = .error JsErr.parseErr ∧
     fromJSON (JsVal.vobj [] JsVal.vnull) JsVal.vundef = .error JsErr.parseErr) :=
  ⟨rfl, rfl, rfl, rfl, rfl, rfl, rfl,
    fromJSON_fields_and_proto _ _ _ _ _ _ _ _ _ rfl rfl rfl rfl rfl rfl rfl⟩
